import Mathlib

/-!
Verification of the go-zabbix-api multi-version client core.

The Go sources are shallowly embedded as Lean definitions:

* Go `map[string]T` values are modelled as association lists
  (`List (String × T)`) whose iteration order is insertion order; map
  assignment is `assocSet`, map indexing is `assocGet`.  A `nil` map or
  slice is the empty list.
* Stateful methods on `*API` / `*VersionManager` become explicit
  state-passing functions; the HTTP exchange performed by a method is an
  oracle argument (`NetOutcome`), and the list of remote methods actually
  invoked is returned as a trace so "no network call happened" is
  expressible.
* `error` results become an explicit sum (`GoErr`) whose constructors
  mirror the dynamic error types of the Go code (`*Error`,
  `ExpectedOneResult`, network / unmarshal errors, feature-gate errors).
-/

namespace Zabbix

/-- Go map model: assignment `m[k] = v` on an association list.  An existing
binding is overwritten in place (iteration order keeps the old position, as a
Go map update does not change the key set); a new key is appended. -/
def assocSet {α : Type} (m : List (String × α)) (k : String) (v : α) :
    List (String × α) :=
  match m with
  | [] => [(k, v)]
  | p :: rest => if p.1 = k then (k, v) :: rest else p :: assocSet rest k v

/-- Go map model: lookup `m[k]`, returning `none` when the key is absent. -/
def assocGet {α : Type} (m : List (String × α)) (k : String) : Option α :=
  match m with
  | [] => none
  | p :: rest => if p.1 = k then some p.2 else assocGet rest k

/-- `HeaderField` (item.go): one `{name, value}` record of the Zabbix 7.0
header array format. -/
structure HeaderField where
  name : String
  value : String
deriving DecidableEq, Repr

/-- `HttpHeaders` (item.go): the Zabbix 6.0 `map[string]string` header
format, in the association-list map model. -/
abbrev HttpHeaders := List (String × String)

/-- `ConvertHeadersToV6` (host.go, item section, lines 858-865): builds a
fresh map and inserts each 7.0 header record in slice order, so a later
duplicate name overwrites an earlier one. -/
def ConvertHeadersToV6 (headersV7 : List HeaderField) : HttpHeaders :=
  headersV7.foldl (fun m h => assocSet m h.name h.value) []

/-- `ConvertHeadersToV7` (host.go, item section, lines 846-856): iterates
the 6.0 map and appends one `{name, value}` record per entry.  Go leaves
the `range` order over a map unspecified, so the association list this is
applied to stands for one arbitrary enumeration of the map's entries;
statements where the order matters quantify over every permutation of the
entry list. -/
def ConvertHeadersToV7 (headersV6 : HttpHeaders) : List HeaderField :=
  headersV6.map (fun p => HeaderField.mk p.1 p.2)

theorem assocSet_of_not_mem {α : Type} (m : List (String × α)) (k : String)
    (v : α) (h : k ∉ m.map Prod.fst) : assocSet m k v = m ++ [(k, v)] := by
  induction m with
  | nil => rfl
  | cons p rest ih =>
    rw [List.map_cons] at h
    have h1 : ¬ p.1 = k := fun hk => h (by simp [hk])
    have h2 : k ∉ rest.map Prod.fst := fun hk => h (by simp [hk])
    simp [assocSet, h1, ih h2]

theorem foldl_assocSet {α : Type} (l : List (String × α)) :
    ∀ acc : List (String × α), ((acc ++ l).map Prod.fst).Nodup →
      l.foldl (fun m p => assocSet m p.1 p.2) acc = acc ++ l := by
  induction l with
  | nil => intro acc _; simp
  | cons p rest ih =>
    intro acc h
    have hsplit := h
    rw [List.map_append, List.nodup_append] at hsplit
    have hmem : p.1 ∈ (p :: rest).map Prod.fst := by simp
    have hnot : p.1 ∉ acc.map Prod.fst := fun hin => hsplit.2.2 hin hmem
    rw [List.foldl_cons, assocSet_of_not_mem acc p.1 p.2 hnot]
    have hre : (acc ++ [p]) ++ rest = acc ++ p :: rest := by
      simp
    have := ih (acc ++ [p]) (by rw [hre]; exact h)
    rw [this, hre]

theorem map_toPair_map_mk (l : List HeaderField) :
    (l.map (fun hf => (hf.name, hf.value))).map
      (fun p => HeaderField.mk p.1 p.2) = l := by
  induction l with
  | nil => rfl
  | cons a t ih =>
    simp only [List.map_cons]
    rw [ih]

theorem convertHeadersToV6_of_nodup (l : List HeaderField)
    (h : (l.map HeaderField.name).Nodup) :
    ConvertHeadersToV6 l = l.map (fun hf => (hf.name, hf.value)) := by
  unfold ConvertHeadersToV6
  have hrw : l.foldl (fun m hf => assocSet m hf.name hf.value) [] =
      (l.map (fun hf => (hf.name, hf.value))).foldl
        (fun m p => assocSet m p.1 p.2) [] := by
    rw [List.foldl_map]
  rw [hrw]
  have hn : (((l.map (fun hf => (hf.name, hf.value)))).map Prod.fst).Nodup := by
    rw [List.map_map]
    exact h
  have := foldl_assocSet (l.map (fun hf => (hf.name, hf.value))) [] (by simpa using hn)
  simpa using this

theorem roundtrip_v7_v6_of_nodup (e : HttpHeaders)
    (he : (e.map Prod.fst).Nodup) :
    ConvertHeadersToV6 (ConvertHeadersToV7 e) = e := by
  unfold ConvertHeadersToV7 ConvertHeadersToV6
  rw [List.foldl_map]
  have := foldl_assocSet e [] (by simpa using he)
  simpa using this

theorem assocGet_perm {α : Type} (e m : List (String × α)) (hperm : e.Perm m) :
    (m.map Prod.fst).Nodup → ∀ k, assocGet e k = assocGet m k := by
  induction hperm with
  | nil =>
    intro _ k
    rfl
  | cons p h ih =>
    intro hm k
    rw [List.map_cons, List.nodup_cons] at hm
    by_cases hp : p.1 = k
    · simp [assocGet, hp]
    · simp [assocGet, hp, ih hm.2 k]
  | swap x y t =>
    intro hm k
    rw [List.map_cons, List.map_cons, List.nodup_cons] at hm
    have hxy : ¬ x.1 = y.1 := fun hh => hm.1 (by simp [hh])
    by_cases hx : x.1 = k <;> by_cases hy : y.1 = k
    · exact absurd (hx.trans hy.symm) hxy
    · simp [assocGet, hx, hy]
    · simp [assocGet, hx, hy]
    · simp [assocGet, hx, hy]
  | trans h1 h2 ih1 ih2 =>
    intro hm k
    have hmid := ((h2.map Prod.fst).nodup_iff).mpr hm
    rw [ih1 hmid k]
    exact ih2 hm k

/-- C1 (amended): what the round trip guarantees does not depend on Go's
unspecified map iteration order, so the entry list handed to
`ConvertHeadersToV7` ranges over every permutation of the map's bindings.
Map → list → map reproduces the original map exactly — same binding for
every key, which is all a Go map observes — for every iteration order.
List → map → list, for a list with pairwise distinct names, reproduces the
original records up to reordering (a permutation), again for every
iteration order; exact order is not guaranteed, and a list with duplicate
names collapses to the last binding, so the unrestricted round trip of the
original claim fails. -/
theorem headers_roundtrip_amended :
    (∀ m : HttpHeaders, (m.map Prod.fst).Nodup →
      ∀ e : HttpHeaders, e.Perm m →
        (ConvertHeadersToV6 (ConvertHeadersToV7 e)).Perm m ∧
        ∀ k, assocGet (ConvertHeadersToV6 (ConvertHeadersToV7 e)) k =
          assocGet m k) ∧
    (∀ l : List HeaderField, (l.map HeaderField.name).Nodup →
      ∀ e : HttpHeaders, e.Perm (ConvertHeadersToV6 l) →
        (ConvertHeadersToV7 e).Perm l) := by
  constructor
  · intro m hm e hperm
    have he : (e.map Prod.fst).Nodup := ((hperm.map Prod.fst).nodup_iff).mpr hm
    rw [roundtrip_v7_v6_of_nodup e he]
    exact ⟨hperm, fun k => assocGet_perm e m hperm hm k⟩
  · intro l hl e hperm
    rw [convertHeadersToV6_of_nodup l hl] at hperm
    have h2 := hperm.map (fun p => HeaderField.mk p.1 p.2)
    rw [map_toPair_map_mk] at h2
    exact h2

/-- Witness for the amended C1 round trip on a concrete header map/list. -/
theorem headers_roundtrip_amended_witness :
    (ConvertHeadersToV6 (ConvertHeadersToV7 [("Accept", "text/html")])).Perm
      [("Accept", "text/html")] ∧
    assocGet (ConvertHeadersToV6 (ConvertHeadersToV7 [("Accept", "text/html")]))
      "Accept" = some "text/html" ∧
    (ConvertHeadersToV7 [("Accept", "text/html")]).Perm
      [HeaderField.mk "Accept" "text/html"] :=
  ⟨(headers_roundtrip_amended.1 [("Accept", "text/html")] (by decide)
      [("Accept", "text/html")] (List.Perm.refl _)).1,
   ((headers_roundtrip_amended.1 [("Accept", "text/html")] (by decide)
      [("Accept", "text/html")] (List.Perm.refl _)).2 "Accept").trans (by decide),
   headers_roundtrip_amended.2 [HeaderField.mk "Accept" "text/html"] (by decide)
      [("Accept", "text/html")] (by decide)⟩

/-- C1 counterexample, independent of Go's map iteration order: the map
built from the duplicate-name list [{A,1}, {A,2}] is the singleton {A: 2}
(map insertion is deterministic), every enumeration of a singleton map
yields the single record [{A,2}], and that is neither equal to nor even a
permutation of the original two-record list — so the claimed round trip
over every header list, duplicates included, fails at this input. -/
theorem headers_roundtrip_counterexample :
    ConvertHeadersToV6 [HeaderField.mk "A" "1", HeaderField.mk "A" "2"] =
      [("A", "2")] ∧
    ConvertHeadersToV7 [("A", "2")] = [HeaderField.mk "A" "2"] ∧
    [HeaderField.mk "A" "2"] ≠
      [HeaderField.mk "A" "1", HeaderField.mk "A" "2"] ∧
    ¬ List.Perm [HeaderField.mk "A" "2"]
        [HeaderField.mk "A" "1", HeaderField.mk "A" "2"] := by
  refine ⟨by decide, by decide, by decide, ?_⟩
  intro hperm
  exact absurd hperm.length_eq (by decide)

/-! ### VersionManager (part_004 lines 542-645) -/

/-- Feature constant `FeatureUUID = "uuid"`. -/
def FeatureUUID : String := "uuid"

/-- Feature constant `FeatureTags = "tags"`. -/
def FeatureTags : String := "tags"

/-- Feature constant `FeatureCompression = "compression"`. -/
def FeatureCompression : String := "compression"

/-- Feature constant `FeatureHTTPMethods = "http_methods"`. -/
def FeatureHTTPMethods : String := "http_methods"

/-- Feature constant `FeatureCalculatedItemTypes = "calculated_item_types"`. -/
def FeatureCalculatedItemTypes : String := "calculated_item_types"

/-- Feature constant `FeatureMFA = "mfa"`. -/
def FeatureMFA : String := "mfa"

/-- Feature constant `FeatureProxyGroup = "proxy_group"`. -/
def FeatureProxyGroup : String := "proxy_group"

/-- Feature constant `FeatureHistoryPush = "history_push"`. -/
def FeatureHistoryPush : String := "history_push"

/-- Feature constant `FeatureBrowserItem = "browser_item"`. -/
def FeatureBrowserItem : String := "browser_item"

/-- Feature constant `FeatureHeadersArrayFormat = "headers_array_format"`. -/
def FeatureHeadersArrayFormat : String := "headers_array_format"

/-- Feature constant `FeatureProxyFieldsV7 = "proxy_fields_v7"`. -/
def FeatureProxyFieldsV7 : String := "proxy_fields_v7"

/-- `strings.Split(s, ".")`: split on every dot; the empty string yields
one empty token, and consecutive dots yield empty tokens. -/
def splitDots (s : String) : List String :=
  (s.toList.foldr
    (fun c acc =>
      if c = '.' then [] :: acc
      else
        match acc with
        | [] => [[c]]
        | g :: gs => (c :: g) :: gs)
    [[]]).map (fun cs => String.mk cs)

/-- `strconv.Atoi`: an optional sign followed by at least one decimal
digit; anything else is a parse error (`none`).  The version components
handled here are far below the int range, so overflow is not modelled. -/
def goAtoi (s : String) : Option Int :=
  match s.toList with
  | [] => none
  | c :: rest =>
    let neg : Bool := c = '-'
    let digits : List Char := if c = '-' ∨ c = '+' then rest else c :: rest
    if digits.isEmpty then none
    else if digits.all (fun d => d.isDigit) then
      let n : Nat := digits.foldl (fun acc d => acc * 10 + (d.toNat - 48)) 0
      some (if neg then -(n : Int) else (n : Int))
    else none

/-- `VersionManager` (part_004 lines 543-550). -/
structure VersionManager where
  serverVersion : String
  majorVersion : Int
  minorVersion : Int
  isZabbix6 : Bool
  isZabbix7 : Bool
  supportedFeatures : List (String × Bool)
deriving DecidableEq, Repr

/-- `NewVersionManager` (part_004 lines 553-557): zero-valued fields and an
empty feature map. -/
def NewVersionManager : VersionManager :=
  { serverVersion := "", majorVersion := 0, minorVersion := 0,
    isZabbix6 := false, isZabbix7 := false, supportedFeatures := [] }

/-- `VersionManager.parseVersion` (part_004 lines 567-581): when the stored
version string has at least two dot-separated tokens, each token that
parses replaces the corresponding component (a token that fails to parse
leaves the previous component in place); with fewer than two tokens no
component is touched.  The major-version flags are then recomputed. -/
def parseVersion (vm : VersionManager) : VersionManager :=
  let parts := splitDots vm.serverVersion
  let major :=
    if 2 ≤ parts.length then
      match goAtoi (parts.getD 0 "") with
      | some m => m
      | none => vm.majorVersion
    else vm.majorVersion
  let minor :=
    if 2 ≤ parts.length then
      match goAtoi (parts.getD 1 "") with
      | some n => n
      | none => vm.minorVersion
    else vm.minorVersion
  { vm with majorVersion := major, minorVersion := minor,
            isZabbix6 := major == 6, isZabbix7 := major == 7 }

/-- `VersionManager.initializeFeatureSupport` (part_004 lines 584-599):
every feature key is (re)assigned on each call, from the two major-version
flags alone. -/
def initializeFeatureSupport (vm : VersionManager) : VersionManager :=
  let b6 := vm.isZabbix6 || vm.isZabbix7
  let m := vm.supportedFeatures
  let m := assocSet m FeatureUUID b6
  let m := assocSet m FeatureTags b6
  let m := assocSet m FeatureCompression b6
  let m := assocSet m FeatureHTTPMethods b6
  let m := assocSet m FeatureCalculatedItemTypes b6
  let m := assocSet m FeatureMFA vm.isZabbix7
  let m := assocSet m FeatureProxyGroup vm.isZabbix7
  let m := assocSet m FeatureHistoryPush vm.isZabbix7
  let m := assocSet m FeatureBrowserItem vm.isZabbix7
  let m := assocSet m FeatureHeadersArrayFormat vm.isZabbix7
  let m := assocSet m FeatureProxyFieldsV7 vm.isZabbix7
  { vm with supportedFeatures := m }

/-- `VersionManager.SetVersion` (part_004 lines 560-564): store the raw
string, parse it, recompute the feature table. -/
def SetVersion (vm : VersionManager) (version : String) : VersionManager :=
  initializeFeatureSupport (parseVersion { vm with serverVersion := version })

/-- `VersionManager.IsFeatureSupported` (part_004 lines 612-615):
`supported, exists := m[feature]; return exists && supported`. -/
def IsFeatureSupported (vm : VersionManager) (feature : String) : Bool :=
  match assocGet vm.supportedFeatures feature with
  | some b => b
  | none => false

/-- The two adapter strategies selected by `initializeAdapters`. -/
inductive AdapterKind where
  | v6
  | v7
deriving DecidableEq, Repr

/-- `API.initializeAdapters` (part_004 lines 343-354): Zabbix 7 adapters
iff the manager classifies the version as 7.x, else the 6.0 adapters. -/
def initializeAdapters (vm : VersionManager) : AdapterKind :=
  if vm.isZabbix7 then AdapterKind.v7 else AdapterKind.v6

theorem assocGet_assocSet_self {α : Type} (m : List (String × α)) (k : String)
    (v : α) : assocGet (assocSet m k v) k = some v := by
  induction m with
  | nil => simp [assocSet, assocGet]
  | cons p rest ih =>
    by_cases hp : p.1 = k
    · simp [assocSet, assocGet, hp]
    · simp [assocSet, assocGet, hp, ih]

theorem assocGet_assocSet_ne {α : Type} (m : List (String × α)) (k k2 : String)
    (v : α) (h : ¬ k2 = k) : assocGet (assocSet m k2 v) k = assocGet m k := by
  induction m with
  | nil => simp [assocSet, assocGet, h]
  | cons p rest ih =>
    by_cases hp : p.1 = k2
    · by_cases hk : p.1 = k
      · exact absurd (hp.symm.trans hk) h
      · simp [assocSet, assocGet, hp, hk, h]
    · simp [assocSet, assocGet, hp, ih]

theorem assocGet_mem {α : Type} (m : List (String × α)) (k : String) (b : α)
    (h : assocGet m k = some b) : ∃ p ∈ m, p.2 = b := by
  induction m with
  | nil => simp [assocGet] at h
  | cons p rest ih =>
    by_cases hp : p.1 = k
    · simp [assocGet, hp] at h
      exact ⟨p, by simp, h⟩
    · simp [assocGet, hp] at h
      obtain ⟨q, hq, hqb⟩ := ih h
      exact ⟨q, by simp [hq], hqb⟩

theorem assocSet_all_false (m : List (String × Bool)) (k : String)
    (hm : ∀ p ∈ m, p.2 = false) : ∀ p ∈ assocSet m k false, p.2 = false := by
  induction m with
  | nil => simp [assocSet]
  | cons q rest ih =>
    by_cases hq : q.1 = k
    · intro p hp
      rw [assocSet] at hp
      simp only [hq, if_pos rfl] at hp
      rcases List.mem_cons.mp hp with h | h
      · rw [h]
      · exact hm p (by simp [h])
    · intro p hp
      rw [assocSet] at hp
      simp only [hq, if_neg hq] at hp
      rcases List.mem_cons.mp hp with h | h
      · exact hm p (by simp [h])
      · exact ih (fun r hr => hm r (by simp [hr])) p h

theorem isFeatureSupported_false_of_all_false (vm : VersionManager)
    (hm : ∀ p ∈ vm.supportedFeatures, p.2 = false) (f : String) :
    IsFeatureSupported vm f = false := by
  unfold IsFeatureSupported
  cases hg : assocGet vm.supportedFeatures f with
  | none => rfl
  | some b =>
    obtain ⟨p, hp, hpb⟩ := assocGet_mem _ _ _ hg
    simp [hm p hp] at hpb
    simp [hpb]

theorem isFeatureSupported_init_mfa (vm : VersionManager) :
    IsFeatureSupported (initializeFeatureSupport vm) FeatureMFA = vm.isZabbix7 := by
  simp only [IsFeatureSupported, initializeFeatureSupport]
  rw [assocGet_assocSet_ne _ FeatureMFA FeatureProxyFieldsV7 _ (by decide),
      assocGet_assocSet_ne _ FeatureMFA FeatureHeadersArrayFormat _ (by decide),
      assocGet_assocSet_ne _ FeatureMFA FeatureBrowserItem _ (by decide),
      assocGet_assocSet_ne _ FeatureMFA FeatureHistoryPush _ (by decide),
      assocGet_assocSet_ne _ FeatureMFA FeatureProxyGroup _ (by decide),
      assocGet_assocSet_self]

theorem initializeFeatureSupport_all_false (vm : VersionManager)
    (h6 : vm.isZabbix6 = false) (h7 : vm.isZabbix7 = false)
    (hm : ∀ p ∈ vm.supportedFeatures, p.2 = false) (f : String) :
    IsFeatureSupported (initializeFeatureSupport vm) f = false := by
  apply isFeatureSupported_false_of_all_false
  simp only [initializeFeatureSupport, h6, h7, Bool.or_self]
  exact assocSet_all_false _ _ (assocSet_all_false _ _ (assocSet_all_false _ _
    (assocSet_all_false _ _ (assocSet_all_false _ _ (assocSet_all_false _ _
    (assocSet_all_false _ _ (assocSet_all_false _ _ (assocSet_all_false _ _
    (assocSet_all_false _ _ (assocSet_all_false _ _ hm))))))))))

theorem parseVersion_flag6 (vm : VersionManager) :
    (parseVersion vm).isZabbix6 = ((parseVersion vm).majorVersion == 6) := rfl

theorem parseVersion_flag7 (vm : VersionManager) :
    (parseVersion vm).isZabbix7 = ((parseVersion vm).majorVersion == 7) := rfl

theorem parseVersion_supportedFeatures (vm : VersionManager) :
    (parseVersion vm).supportedFeatures = vm.supportedFeatures := rfl

theorem parseVersion_serverVersion (vm : VersionManager) :
    (parseVersion vm).serverVersion = vm.serverVersion := rfl

theorem setVersion_serverVersion (vm : VersionManager) (v : String) :
    (SetVersion vm v).serverVersion = v := by
  unfold SetVersion
  show (parseVersion { vm with serverVersion := v }).serverVersion = v
  rw [parseVersion_serverVersion]

theorem setVersion_major_parse (vm : VersionManager) (s : String) (m : Int)
    (hlen : 2 ≤ (splitDots s).length)
    (hm : goAtoi ((splitDots s).getD 0 "") = some m) :
    (SetVersion vm s).majorVersion = m ∧
    (SetVersion vm s).isZabbix7 = (m == 7) ∧
    (SetVersion vm s).isZabbix6 = (m == 6) := by
  have hm2 : goAtoi ((splitDots s)[0]?.getD "") = some m := by simpa using hm
  simp only [SetVersion, initializeFeatureSupport, parseVersion]
  simp [hlen, hm2]

theorem setVersion_major_noparse (vm : VersionManager) (s : String)
    (hlen : 2 ≤ (splitDots s).length)
    (hm : goAtoi ((splitDots s).getD 0 "") = none) :
    (SetVersion vm s).majorVersion = vm.majorVersion ∧
    (SetVersion vm s).isZabbix7 = (vm.majorVersion == 7) ∧
    (SetVersion vm s).isZabbix6 = (vm.majorVersion == 6) := by
  have hm2 : goAtoi ((splitDots s)[0]?.getD "") = none := by simpa using hm
  simp only [SetVersion, initializeFeatureSupport, parseVersion]
  simp [hlen, hm2]

theorem setVersion_minor_parse (vm : VersionManager) (s : String) (n : Int)
    (hlen : 2 ≤ (splitDots s).length)
    (hn : goAtoi ((splitDots s).getD 1 "") = some n) :
    (SetVersion vm s).minorVersion = n := by
  have hn2 : goAtoi ((splitDots s)[1]?.getD "") = some n := by simpa using hn
  simp only [SetVersion, initializeFeatureSupport, parseVersion]
  simp [hlen, hn2]

theorem setVersion_minor_noparse (vm : VersionManager) (s : String)
    (hlen : 2 ≤ (splitDots s).length)
    (hn : goAtoi ((splitDots s).getD 1 "") = none) :
    (SetVersion vm s).minorVersion = vm.minorVersion := by
  have hn2 : goAtoi ((splitDots s)[1]?.getD "") = none := by simpa using hn
  simp only [SetVersion, initializeFeatureSupport, parseVersion]
  simp [hlen, hn2]

theorem setVersion_short (vm : VersionManager) (s : String)
    (hlen : (splitDots s).length < 2) :
    (SetVersion vm s).majorVersion = vm.majorVersion ∧
    (SetVersion vm s).minorVersion = vm.minorVersion ∧
    (SetVersion vm s).isZabbix7 = (vm.majorVersion == 7) ∧
    (SetVersion vm s).isZabbix6 = (vm.majorVersion == 6) := by
  have hn : ¬ 2 ≤ (splitDots s).length := by omega
  simp only [SetVersion, initializeFeatureSupport, parseVersion]
  simp [hn]

theorem setVersion_isFeatureSupported_mfa (vm : VersionManager) (s : String) :
    IsFeatureSupported (SetVersion vm s) FeatureMFA = (SetVersion vm s).isZabbix7 := by
  unfold SetVersion
  rw [isFeatureSupported_init_mfa]
  rfl

theorem setVersion_no_features_of_major0 (vm : VersionManager) (s : String)
    (hmaj : (SetVersion vm s).majorVersion = 0)
    (hfeat : vm.supportedFeatures = []) (f : String) :
    IsFeatureSupported (SetVersion vm s) f = false := by
  unfold SetVersion at hmaj ⊢
  have hpm : (parseVersion { vm with serverVersion := s }).majorVersion = 0 := hmaj
  apply initializeFeatureSupport_all_false
  · rw [parseVersion_flag6, hpm]
    decide
  · rw [parseVersion_flag7, hpm]
    decide
  · rw [parseVersion_supportedFeatures]
    simp [hfeat]

/-- C2 counterexample: the claim requires that an unparsable version string
set after "7.0" must not leave the 7.0 feature flags in effect, but
`SetVersion "x.y"` fails to parse the major token, keeps the previously
parsed major version 7, and therefore leaves the "mfa" flag enabled. -/
theorem version_gating_counterexample :
    goAtoi "x" = none ∧
    IsFeatureSupported (SetVersion (SetVersion NewVersionManager "7.0") "x.y")
      FeatureMFA = true := by
  exact ⟨by decide, by decide⟩

/-- C2 (amended): for the 7.0-gated features the flag is true iff the
currently stored major version is exactly 7 (not major ≥ 7); setting a
sequence of parsable versions below / above / below 7 flips the flag
deterministically with no carry-over; but a version string whose major
token does not parse keeps the previously stored major version, and with it
the previous flags. -/
theorem version_gating_amended :
    (∀ (vm : VersionManager) (s : String) (m : Int),
        2 ≤ (splitDots s).length →
        goAtoi ((splitDots s).getD 0 "") = some m →
        IsFeatureSupported (SetVersion vm s) FeatureMFA = (m == 7)) ∧
    (∀ (vm : VersionManager) (s : String),
        2 ≤ (splitDots s).length →
        goAtoi ((splitDots s).getD 0 "") = none →
        (SetVersion vm s).majorVersion = vm.majorVersion ∧
        IsFeatureSupported (SetVersion vm s) FeatureMFA =
          (vm.majorVersion == 7)) ∧
    (∀ vm : VersionManager,
        IsFeatureSupported (SetVersion vm "6.4.0") FeatureMFA = false ∧
        IsFeatureSupported (SetVersion (SetVersion vm "6.4.0") "7.0.0")
          FeatureMFA = true ∧
        IsFeatureSupported
          (SetVersion (SetVersion (SetVersion vm "6.4.0") "7.0.0") "6.4.0")
          FeatureMFA = false) := by
  have hmain : ∀ (vm : VersionManager) (s : String) (m : Int),
      2 ≤ (splitDots s).length →
      goAtoi ((splitDots s).getD 0 "") = some m →
      IsFeatureSupported (SetVersion vm s) FeatureMFA = (m == 7) := by
    intro vm s m hlen hm
    rw [setVersion_isFeatureSupported_mfa, (setVersion_major_parse vm s m hlen hm).2.1]
  refine ⟨hmain, ?_, ?_⟩
  · intro vm s hlen hm
    refine ⟨(setVersion_major_noparse vm s hlen hm).1, ?_⟩
    rw [setVersion_isFeatureSupported_mfa, (setVersion_major_noparse vm s hlen hm).2.1]
  · intro vm
    refine ⟨?_, ?_, ?_⟩
    · rw [hmain vm "6.4.0" 6 (by decide) (by decide)]
      decide
    · rw [hmain _ "7.0.0" 7 (by decide) (by decide)]
      decide
    · rw [hmain _ "6.4.0" 6 (by decide) (by decide)]
      decide

/-- Witness for the amended C2 statement at concrete versions: major 8 is
not classified as 7.0-featured, and the unparsable string "x.y" retains the
previously stored major version. -/
theorem version_gating_amended_witness :
    IsFeatureSupported (SetVersion NewVersionManager "8.1.0") FeatureMFA = false ∧
    (SetVersion (SetVersion NewVersionManager "7.0") "x.y").majorVersion =
      (SetVersion NewVersionManager "7.0").majorVersion := by
  constructor
  · exact (version_gating_amended.1 NewVersionManager "8.1.0" 8 (by decide)
      (by decide)).trans (by decide)
  · exact (version_gating_amended.2.1 (SetVersion NewVersionManager "7.0") "x.y"
      (by decide) (by decide)).1

/-- C7 counterexample: for the single-token version string "7" the claim
says token 0 is parsed as the major version (7, with the missing minor
defaulting to 0), but `SetVersion` skips parsing entirely when there are
fewer than two dot-separated tokens: the major version stays 0 and no
7.0 feature is enabled even though token 0 parses as 7. -/
theorem detection_defaults_counterexample :
    splitDots "7" = ["7"] ∧ goAtoi "7" = some 7 ∧
    (SetVersion NewVersionManager "7").majorVersion = 0 ∧
    IsFeatureSupported (SetVersion NewVersionManager "7") FeatureMFA = false := by
  exact ⟨by decide, by decide, by decide, by decide⟩

/-- C7 (amended): detection never fails.  On a fresh manager, a version
string with fewer than two dot-separated tokens leaves major and minor at
0 (even when token 0 would parse) and enables no feature; with at least two
tokens, each token that parses is taken and an unparsable token leaves the
component at 0, an unparsable major enabling no feature. -/
theorem detection_defaults_amended :
    ∀ s : String,
      ((splitDots s).length < 2 →
        (SetVersion NewVersionManager s).majorVersion = 0 ∧
        (SetVersion NewVersionManager s).minorVersion = 0 ∧
        ∀ f, IsFeatureSupported (SetVersion NewVersionManager s) f = false) ∧
      (∀ m : Int, 2 ≤ (splitDots s).length →
        goAtoi ((splitDots s).getD 0 "") = some m →
        (SetVersion NewVersionManager s).majorVersion = m) ∧
      (2 ≤ (splitDots s).length →
        goAtoi ((splitDots s).getD 0 "") = none →
        (SetVersion NewVersionManager s).majorVersion = 0 ∧
        ∀ f, IsFeatureSupported (SetVersion NewVersionManager s) f = false) ∧
      (∀ n : Int, 2 ≤ (splitDots s).length →
        goAtoi ((splitDots s).getD 1 "") = some n →
        (SetVersion NewVersionManager s).minorVersion = n) ∧
      (2 ≤ (splitDots s).length →
        goAtoi ((splitDots s).getD 1 "") = none →
        (SetVersion NewVersionManager s).minorVersion = 0) := by
  intro s
  refine ⟨?_, ?_, ?_, ?_, ?_⟩
  · intro hlen
    have h := setVersion_short NewVersionManager s hlen
    exact ⟨h.1, h.2.1, fun f => setVersion_no_features_of_major0 _ _ h.1 rfl f⟩
  · intro m hlen hm
    exact (setVersion_major_parse _ s m hlen hm).1
  · intro hlen hm
    have h := setVersion_major_noparse NewVersionManager s hlen hm
    exact ⟨h.1, fun f => setVersion_no_features_of_major0 _ _ h.1 rfl f⟩
  · intro n hlen hn
    exact setVersion_minor_parse _ s n hlen hn
  · intro hlen hn
    exact setVersion_minor_noparse _ s hlen hn

/-- Witness for the amended C7 statement at the concrete strings "x.y",
"6.4.0" and "7". -/
theorem detection_defaults_amended_witness :
    (SetVersion NewVersionManager "x.y").majorVersion = 0 ∧
    IsFeatureSupported (SetVersion NewVersionManager "x.y") FeatureMFA = false ∧
    (SetVersion NewVersionManager "6.4.0").majorVersion = 6 ∧
    (SetVersion NewVersionManager "7").minorVersion = 0 := by
  refine ⟨((detection_defaults_amended "x.y").2.2.1 (by decide) (by decide)).1,
    ((detection_defaults_amended "x.y").2.2.1 (by decide) (by decide)).2 FeatureMFA,
    (detection_defaults_amended "6.4.0").2.1 6 (by decide) (by decide),
    ((detection_defaults_amended "7").1 (by decide)).2.1⟩

/-! ### Transport (part_004 lines 22-55 and 458-540) -/

/-- `Error` (part_004 lines 47-55): the structured JSON-RPC error object
reported by the server, with code, message and auxiliary data. -/
structure Error where
  code : Int
  message : String
  data : String
deriving DecidableEq, Repr

/-- `RawResponse` (part_004 lines 39-44): the decoded JSON-RPC envelope.
The opaque `json.RawMessage` result payload is modelled as its JSON text. -/
structure RawResponse where
  error : Option Error
  result : String
deriving DecidableEq, Repr

/-- The dynamic `error` values the client can return: an HTTP/network
failure (`http.Client.Do` error), a JSON unmarshal failure, the server's
`*Error`, the local `ExpectedOneResult` count error, and the local
feature-gate `fmt.Errorf` sentinel. -/
inductive GoErr where
  | transport (msg : String)
  | decode (msg : String)
  | protocol (e : Error)
  | expectedOneResult (n : Nat)
  | unsupportedFeature (msg : String)
deriving DecidableEq, Repr

/-- Oracle for one POST exchange: the network layer fails, or the body does
not decode as a JSON-RPC envelope, or a decoded envelope comes back. -/
inductive NetOutcome where
  | netFail (msg : String)
  | decodeFail (msg : String)
  | response (r : RawResponse)
deriving DecidableEq, Repr

/-- `API.CallWithError` (part_004 lines 458-518): a network failure and an
unmarshal failure are returned as they are; a decoded envelope carrying an
error object is turned into that `*Error`; otherwise the envelope is
returned with no error. -/
def CallWithError (o : NetOutcome) : Except GoErr RawResponse :=
  match o with
  | NetOutcome.netFail m => Except.error (GoErr.transport m)
  | NetOutcome.decodeFail m => Except.error (GoErr.decode m)
  | NetOutcome.response r =>
    match r.error with
    | some e => Except.error (GoErr.protocol e)
    | none => Except.ok r

/-- `API.Call` (part_004 lines 532-540): delegate to `CallWithError` and
project the result payload. -/
def Call (o : NetOutcome) : Except GoErr String :=
  match CallWithError o with
  | Except.error e => Except.error e
  | Except.ok r => Except.ok r.result

/-- C9: Call/CallWithError keep protocol errors and transport failures as
distinct error kinds: a JSON-RPC error object is returned as the typed
protocol error carrying its code, message and data, while a failed network
exchange or a malformed body is returned as the underlying transport or
serialization error and is never a protocol error. -/
theorem call_error_classification :
    ∀ o : NetOutcome,
      (∀ m, o = NetOutcome.netFail m →
        CallWithError o = Except.error (GoErr.transport m) ∧
        Call o = Except.error (GoErr.transport m)) ∧
      (∀ m, o = NetOutcome.decodeFail m →
        CallWithError o = Except.error (GoErr.decode m) ∧
        Call o = Except.error (GoErr.decode m)) ∧
      (∀ r e, o = NetOutcome.response r → r.error = some e →
        CallWithError o = Except.error (GoErr.protocol e) ∧
        Call o = Except.error (GoErr.protocol e)) ∧
      (∀ r, o = NetOutcome.response r → r.error = none →
        CallWithError o = Except.ok r ∧ Call o = Except.ok r.result) ∧
      (∀ e m, o = NetOutcome.netFail m ∨ o = NetOutcome.decodeFail m →
        CallWithError o ≠ Except.error (GoErr.protocol e)) := by
  intro o
  refine ⟨?_, ?_, ?_, ?_, ?_⟩
  · intro m h
    subst h
    exact ⟨rfl, rfl⟩
  · intro m h
    subst h
    exact ⟨rfl, rfl⟩
  · intro r e h hre
    subst h
    simp [CallWithError, Call, hre]
  · intro r h hre
    subst h
    simp [CallWithError, Call, hre]
  · intro e m h
    rcases h with h | h <;> subst h <;> simp [CallWithError]

/-- Witness for C9 at a concrete refused connection and a concrete
JSON-RPC error object. -/
theorem call_error_classification_witness :
    CallWithError (NetOutcome.netFail "connection refused") =
      Except.error (GoErr.transport "connection refused") ∧
    CallWithError (NetOutcome.response
        (RawResponse.mk (some (Error.mk (-32602) "Invalid params" "")) "")) =
      Except.error (GoErr.protocol (Error.mk (-32602) "Invalid params" "")) :=
  ⟨((call_error_classification (NetOutcome.netFail "connection refused")).1
      "connection refused" rfl).1,
   ((call_error_classification (NetOutcome.response
        (RawResponse.mk (some (Error.mk (-32602) "Invalid params" "")) ""))).2.2.1
      (RawResponse.mk (some (Error.mk (-32602) "Invalid params" "")) "")
      (Error.mk (-32602) "Invalid params" "") rfl rfl).1⟩

/-! ### Resources and by-ID lookups (host.go, item section of host.go, mfa.go) -/

/-- `Host` (host.go lines 59-88): only the identifying fields participate in
the verified control flow; the remaining payload fields are opaque to it. -/
structure Host where
  hostID : String
  host : String
  name : String
deriving DecidableEq, Repr

/-- `Item` (item section of host.go, lines 426-490): the fields involved in
the multi-version header/query-field normalization, plus identifiers. -/
structure Item where
  itemID : String
  key : String
  name : String
  headersV6 : HttpHeaders
  headersV7 : List HeaderField
  queryFieldsV6 : List (String × String)
  queryFieldsV7 : List HeaderField
  browserScript : String
  browserParams : String
deriving DecidableEq, Repr

/-- `MFA` (mfa.go lines 29-38): identifying fields. -/
structure MFA where
  mfaID : String
  name : String
deriving DecidableEq, Repr

/-- `User` (mfa.go lines 152-160): identifying fields. -/
structure User where
  userID : String
  username : String
deriving DecidableEq, Repr

/-- `API.HostGetByID` (host.go lines 126-140), applied to the outcome of the
underlying `HostsGet` query: a query error propagates; exactly one match is
returned; otherwise the `ExpectedOneResult` count error is raised. -/
def HostGetByID (queryRes : Except GoErr (List Host)) : Except GoErr Host :=
  match queryRes with
  | Except.error e => Except.error e
  | Except.ok hosts =>
    match hosts with
    | [h] => Except.ok h
    | _ => Except.error (GoErr.expectedOneResult hosts.length)

/-- `API.ItemGetByID` (item section of host.go, lines 543-557), applied to
the outcome of the underlying `ItemsGet` query. -/
def ItemGetByID (queryRes : Except GoErr (List Item)) : Except GoErr Item :=
  match queryRes with
  | Except.error e => Except.error e
  | Except.ok items =>
    match items with
    | [i] => Except.ok i
    | _ => Except.error (GoErr.expectedOneResult items.length)

/-- `API.MFAGetByID` (mfa.go lines 121-132), applied to the outcome of the
underlying `MFAGet` query (a feature-gate denial arrives as a query error). -/
def MFAGetByID (queryRes : Except GoErr (List MFA)) : Except GoErr MFA :=
  match queryRes with
  | Except.error e => Except.error e
  | Except.ok mfas =>
    match mfas with
    | [m] => Except.ok m
    | _ => Except.error (GoErr.expectedOneResult mfas.length)

/-- `API.UserGetByID` (mfa.go lines 184-195), applied to the outcome of the
underlying `UsersGet` query. -/
def UserGetByID (queryRes : Except GoErr (List User)) : Except GoErr User :=
  match queryRes with
  | Except.error e => Except.error e
  | Except.ok users =>
    match users with
    | [u] => Except.ok u
    | _ => Except.error (GoErr.expectedOneResult users.length)

/-- C3: for every by-ID lookup whose underlying query succeeds, exactly one
match is returned with no error, while zero or several matches yield the
typed ExpectedOneResult error carrying the actual count and no resource;
the first of several matches is never returned.  Query errors propagate. -/
theorem getByID_exactly_one :
    (∀ h : Host, HostGetByID (Except.ok [h]) = Except.ok h) ∧
    (∀ l : List Host, l.length ≠ 1 →
      HostGetByID (Except.ok l) = Except.error (GoErr.expectedOneResult l.length)) ∧
    (∀ i : Item, ItemGetByID (Except.ok [i]) = Except.ok i) ∧
    (∀ l : List Item, l.length ≠ 1 →
      ItemGetByID (Except.ok l) = Except.error (GoErr.expectedOneResult l.length)) ∧
    (∀ m : MFA, MFAGetByID (Except.ok [m]) = Except.ok m) ∧
    (∀ l : List MFA, l.length ≠ 1 →
      MFAGetByID (Except.ok l) = Except.error (GoErr.expectedOneResult l.length)) ∧
    (∀ u : User, UserGetByID (Except.ok [u]) = Except.ok u) ∧
    (∀ l : List User, l.length ≠ 1 →
      UserGetByID (Except.ok l) = Except.error (GoErr.expectedOneResult l.length)) := by
  refine ⟨fun h => rfl, ?_, fun i => rfl, ?_, fun m => rfl, ?_, fun u => rfl, ?_⟩ <;>
    intro l hl <;>
    match l with
    | [] => rfl
    | [x] => exact absurd rfl hl
    | x :: y :: t => rfl

/-- Witness for C3: a singleton query returns its element, an empty query
raises ExpectedOneResult 0, a two-element query raises ExpectedOneResult 2. -/
theorem getByID_exactly_one_witness :
    HostGetByID (Except.ok [Host.mk "10084" "web01" "Web server"]) =
      Except.ok (Host.mk "10084" "web01" "Web server") ∧
    ItemGetByID (Except.ok ([] : List Item)) =
      Except.error (GoErr.expectedOneResult 0) ∧
    MFAGetByID (Except.ok [MFA.mk "1" "totp-a", MFA.mk "2" "totp-b"]) =
      Except.error (GoErr.expectedOneResult 2) ∧
    UserGetByID (Except.ok [User.mk "1" "Admin"]) =
      Except.ok (User.mk "1" "Admin") :=
  ⟨getByID_exactly_one.1 (Host.mk "10084" "web01" "Web server"),
   getByID_exactly_one.2.2.2.1 [] (by decide),
   getByID_exactly_one.2.2.2.2.2.1 [MFA.mk "1" "totp-a", MFA.mk "2" "totp-b"] (by decide),
   getByID_exactly_one.2.2.2.2.2.2.1 (User.mk "1" "Admin")⟩

/-! ### Zabbix 7.0 item adapter (item section of host.go, lines 702-779) -/

/-- Outbound normalization loop body, character-identical in
`Zabbix7ItemAdapter.CreateItems` (lines 707-738) and `.UpdateItems`
(lines 744-775): a populated 6.0 header map is converted to a fresh 7.0
header list and the map is set to nil; likewise for query fields. -/
def zabbix7PrepareItem (item : Item) : Item :=
  let item1 :=
    if 0 < item.headersV6.length then
      { item with
          headersV7 := item.headersV6.map (fun p => HeaderField.mk p.1 p.2),
          headersV6 := [] }
    else item
  if 0 < item1.queryFieldsV6.length then
    { item1 with
        queryFieldsV7 := item1.queryFieldsV6.map (fun p => HeaderField.mk p.1 p.2),
        queryFieldsV6 := [] }
  else item1

/-- `Zabbix7ItemAdapter.CreateItems`: the item list exactly as handed to the
transmitting `createItemsLegacy` call after normalization. -/
def Zabbix7ItemAdapterCreateItems (items : List Item) : List Item :=
  items.map zabbix7PrepareItem

/-- `Zabbix7ItemAdapter.UpdateItems`: the item list exactly as handed to the
transmitting `updateItemsLegacy` call after normalization. -/
def Zabbix7ItemAdapterUpdateItems (items : List Item) : List Item :=
  items.map zabbix7PrepareItem

/-- The scenario item of C4: only the old-format header map is populated. -/
def acceptItem : Item :=
  { itemID := "", key := "", name := "",
    headersV6 := [("Accept", "text/html")], headersV7 := [],
    queryFieldsV6 := [], queryFieldsV7 := [],
    browserScript := "", browserParams := "" }

/-- C4: with detected version "7.0.0" the 7.0 item adapter is selected, and
its create/update normalization turns an item carrying only the old-format
header map into one whose new-format list holds exactly the corresponding
records while the old-format map is cleared, so at most one representation
reaches the wire; concretely, {"Accept": "text/html"} becomes
[{name: "Accept", value: "text/html"}] with the map nil. -/
theorem item_outbound_normalization :
    initializeAdapters (SetVersion NewVersionManager "7.0.0") = AdapterKind.v7 ∧
    (∀ item : Item, item.headersV7 = [] → 0 < item.headersV6.length →
      (zabbix7PrepareItem item).headersV7 =
        item.headersV6.map (fun p => HeaderField.mk p.1 p.2) ∧
      (zabbix7PrepareItem item).headersV6 = []) ∧
    Zabbix7ItemAdapterCreateItems [acceptItem] =
      [{ acceptItem with headersV7 := [HeaderField.mk "Accept" "text/html"],
                         headersV6 := [] }] ∧
    Zabbix7ItemAdapterUpdateItems [acceptItem] =
      [{ acceptItem with headersV7 := [HeaderField.mk "Accept" "text/html"],
                         headersV6 := [] }] := by
  refine ⟨by decide, ?_, by decide, by decide⟩
  intro item h7 h6
  simp only [zabbix7PrepareItem, h6, if_true, reduceIte]
  by_cases hq : 0 < item.queryFieldsV6.length <;> simp [hq]

/-- Witness for C4 at the concrete scenario item. -/
theorem item_outbound_normalization_witness :
    (zabbix7PrepareItem acceptItem).headersV7 =
      [HeaderField.mk "Accept" "text/html"] ∧
    (zabbix7PrepareItem acceptItem).headersV6 = [] :=
  ⟨(item_outbound_normalization.2.1 acceptItem rfl (by decide)).1.trans (by decide),
   (item_outbound_normalization.2.1 acceptItem rfl (by decide)).2⟩

/-! ### Feature-gated operations (mfa.go, proxy_group.go pattern; HistoryPush) -/

/-- `HistoryData` (part_004 lines 74-80). -/
structure HistoryData where
  host : String
  key : String
  value : String
  clock : Int
deriving DecidableEq, Repr

/-- `API.MFACreate` (mfa.go lines 54-70): feature gate first, then one
`mfa.create` exchange.  The returned list of method names is the trace of
transport calls actually issued; the mfaid write-back on the success path
does not affect the gate and is not modelled. -/
def MFACreate (vm : VersionManager) (mfas : List MFA) (net : NetOutcome) :
    Except GoErr Unit × List String :=
  if !(IsFeatureSupported vm FeatureMFA) then
    (Except.error (GoErr.unsupportedFeature
      ("MFA not supported in Zabbix version " ++ vm.serverVersion)), [])
  else
    match CallWithError net with
    | Except.error e => (Except.error e, ["mfa.create"])
    | Except.ok _ => (Except.ok (), ["mfa.create"])

/-- `API.MFAGet` (mfa.go lines 74-86): feature gate, then one `mfa.get`
exchange whose result payload is unmarshalled by `decode`; the untouched
`params` argument only affects the request body. -/
def MFAGet (vm : VersionManager) (params : List (String × String))
    (net : NetOutcome) (decode : String → Except String (List MFA)) :
    Except GoErr (List MFA) × List String :=
  if !(IsFeatureSupported vm FeatureMFA) then
    (Except.error (GoErr.unsupportedFeature
      ("MFA not supported in Zabbix version " ++ vm.serverVersion)), [])
  else
    match CallWithError net with
    | Except.error e => (Except.error e, ["mfa.get"])
    | Except.ok r =>
      match decode r.result with
      | Except.error m => (Except.error (GoErr.decode m), ["mfa.get"])
      | Except.ok res => (Except.ok res, ["mfa.get"])

/-- `API.MFAUpdate` (mfa.go lines 90-97). -/
def MFAUpdate (vm : VersionManager) (mfas : List MFA) (net : NetOutcome) :
    Except GoErr Unit × List String :=
  if !(IsFeatureSupported vm FeatureMFA) then
    (Except.error (GoErr.unsupportedFeature
      ("MFA not supported in Zabbix version " ++ vm.serverVersion)), [])
  else
    match CallWithError net with
    | Except.error e => (Except.error e, ["mfa.update"])
    | Except.ok _ => (Except.ok (), ["mfa.update"])

/-- `API.MFADelete` (mfa.go lines 101-118): feature gate, one `mfa.delete`
exchange over the collected ids, and on success the ids are cleared in
place. -/
def MFADelete (vm : VersionManager) (mfas : List MFA) (net : NetOutcome) :
    Except GoErr (List MFA) × List String :=
  if !(IsFeatureSupported vm FeatureMFA) then
    (Except.error (GoErr.unsupportedFeature
      ("MFA not supported in Zabbix version " ++ vm.serverVersion)), [])
  else
    match CallWithError net with
    | Except.error e => (Except.error e, ["mfa.delete"])
    | Except.ok _ => (Except.ok (mfas.map (fun m => { m with mfaID := "" })), ["mfa.delete"])

/-- `API.UserResetTOTP` (mfa.go lines 136-144): gated on the same MFA
feature, then one `user.resetotp` exchange. -/
def UserResetTOTP (vm : VersionManager) (userIDs : List String) (net : NetOutcome) :
    Except GoErr Unit × List String :=
  if !(IsFeatureSupported vm FeatureMFA) then
    (Except.error (GoErr.unsupportedFeature
      ("MFA not supported in Zabbix version " ++ vm.serverVersion)), [])
  else
    match CallWithError net with
    | Except.error e => (Except.error e, ["user.resetotp"])
    | Except.ok _ => (Except.ok (), ["user.resetotp"])

/-- `API.HistoryPush` (base.go lines 630-636): gated on the history-push
feature, then one `history.push` exchange. -/
def HistoryPush (vm : VersionManager) (data : List HistoryData) (net : NetOutcome) :
    Except GoErr Unit × List String :=
  if !(IsFeatureSupported vm FeatureHistoryPush) then
    (Except.error (GoErr.unsupportedFeature
      ("history.push not supported in Zabbix version " ++ vm.serverVersion)), [])
  else
    match CallWithError net with
    | Except.error e => (Except.error e, ["history.push"])
    | Except.ok _ => (Except.ok (), ["history.push"])

/-- C5: every feature-gated operation invoked while the detected version
does not support the required feature returns the unsupported-feature
sentinel error with an empty transport trace, i.e. before any network
call. -/
theorem feature_gate_blocks_before_network :
    ∀ (vm : VersionManager) (mfas : List MFA) (params : List (String × String))
      (ids : List String) (data : List HistoryData) (net : NetOutcome)
      (decode : String → Except String (List MFA)),
      (IsFeatureSupported vm FeatureMFA = false →
        MFACreate vm mfas net = (Except.error (GoErr.unsupportedFeature
          ("MFA not supported in Zabbix version " ++ vm.serverVersion)), []) ∧
        MFAGet vm params net decode = (Except.error (GoErr.unsupportedFeature
          ("MFA not supported in Zabbix version " ++ vm.serverVersion)), []) ∧
        MFAUpdate vm mfas net = (Except.error (GoErr.unsupportedFeature
          ("MFA not supported in Zabbix version " ++ vm.serverVersion)), []) ∧
        MFADelete vm mfas net = (Except.error (GoErr.unsupportedFeature
          ("MFA not supported in Zabbix version " ++ vm.serverVersion)), []) ∧
        UserResetTOTP vm ids net = (Except.error (GoErr.unsupportedFeature
          ("MFA not supported in Zabbix version " ++ vm.serverVersion)), [])) ∧
      (IsFeatureSupported vm FeatureHistoryPush = false →
        HistoryPush vm data net = (Except.error (GoErr.unsupportedFeature
          ("history.push not supported in Zabbix version " ++ vm.serverVersion)), [])) := by
  intro vm mfas params ids data net decode
  constructor
  · intro h
    refine ⟨?_, ?_, ?_, ?_, ?_⟩ <;>
      simp [MFACreate, MFAGet, MFAUpdate, MFADelete, UserResetTOTP, h]
  · intro h
    simp [HistoryPush, h]

/-- Witness for C5: detected version "6.4.0" denies both gates, and each
operation returns the sentinel with an empty trace. -/
theorem feature_gate_blocks_before_network_witness :
    MFACreate (SetVersion NewVersionManager "6.4.0") [] (NetOutcome.netFail "unused") =
      (Except.error (GoErr.unsupportedFeature
        ("MFA not supported in Zabbix version " ++
          (SetVersion NewVersionManager "6.4.0").serverVersion)), []) ∧
    HistoryPush (SetVersion NewVersionManager "6.4.0") [] (NetOutcome.netFail "unused") =
      (Except.error (GoErr.unsupportedFeature
        ("history.push not supported in Zabbix version " ++
          (SetVersion NewVersionManager "6.4.0").serverVersion)), []) :=
  ⟨((feature_gate_blocks_before_network (SetVersion NewVersionManager "6.4.0")
      [] [] [] [] (NetOutcome.netFail "unused")
      (fun _ => Except.error "unused")).1 (by decide)).1,
   (feature_gate_blocks_before_network (SetVersion NewVersionManager "6.4.0")
      [] [] [] [] (NetOutcome.netFail "unused")
      (fun _ => Except.error "unused")).2 (by decide)⟩

/-! ### Session: Logout, Login, version detection (part_001/part_004), and
the auth-swapping Version variant (base.go) -/

/-- The mutable `API` session state relevant to the verified operations:
the auth token (`api.Auth`), the version manager, and the selected
adapters (part_004 lines 83-97). -/
structure ApiState where
  auth : String
  vm : VersionManager
  itemAdapter : Option AdapterKind
  hostAdapter : Option AdapterKind
deriving DecidableEq, Repr

/-- `NewAPI` (part_004 lines 116-140): empty token, fresh version manager,
no adapters selected yet. -/
def NewAPIState : ApiState :=
  { auth := "", vm := NewVersionManager, itemAdapter := none, hostAdapter := none }

/-- `API.Logout` (part_004 lines 265-271): one `user.logout` exchange; the
token is cleared only when the exchange produced no error. -/
def Logout (st : ApiState) (net : NetOutcome) : ApiState × Option GoErr :=
  match CallWithError net with
  | Except.ok _ => ({ st with auth := "" }, none)
  | Except.error e => (st, some e)

/-- C6 counterexample: the claim says Logout clears the stored token even
when the remote user.logout call fails, but on a transport failure the
token "token123" is retained (the code clears it only under err == nil). -/
theorem logout_counterexample :
    (Logout { NewAPIState with auth := "token123" }
        (NetOutcome.netFail "connection refused")).1.auth = "token123" ∧
    "token123" ≠ "" := by
  exact ⟨rfl, by decide⟩

/-- C6 (amended): Logout clears the locally stored token iff the remote
user.logout call succeeds; when the call fails (transport failure or
protocol error) the token is retained and the error is returned. -/
theorem logout_amended :
    ∀ (st : ApiState) (net : NetOutcome),
      (∀ r, CallWithError net = Except.ok r →
        Logout st net = ({ st with auth := "" }, none)) ∧
      (∀ e, CallWithError net = Except.error e →
        Logout st net = (st, some e)) := by
  intro st net
  constructor
  · intro r h
    simp [Logout, h]
  · intro e h
    simp [Logout, h]

/-- Witness for the amended C6 statement: a successful logout clears the
token, a refused connection keeps it. -/
theorem logout_amended_witness :
    Logout { NewAPIState with auth := "tok" }
        (NetOutcome.response (RawResponse.mk none "true")) =
      ({ NewAPIState with auth := "" }, none) ∧
    Logout { NewAPIState with auth := "tok" } (NetOutcome.netFail "refused") =
      ({ NewAPIState with auth := "tok" }, some (GoErr.transport "refused")) :=
  ⟨(logout_amended { NewAPIState with auth := "tok" }
      (NetOutcome.response (RawResponse.mk none "true"))).1
      (RawResponse.mk none "true") rfl,
   (logout_amended { NewAPIState with auth := "tok" }
      (NetOutcome.netFail "refused")).2 (GoErr.transport "refused") rfl⟩

/-- `API.Version` (part_004 lines 274-321): the request is built directly,
with no auth field at all, and the outcome is classified exactly as in
`CallWithError`. -/
def VersionNoAuth (o : NetOutcome) : Except GoErr String :=
  match o with
  | NetOutcome.netFail m => Except.error (GoErr.transport m)
  | NetOutcome.decodeFail m => Except.error (GoErr.decode m)
  | NetOutcome.response r =>
    match r.error with
    | some e => Except.error (GoErr.protocol e)
    | none => Except.ok r.result

/-- `API.DetectVersion` (part_004 lines 324-340): one apiinfo.version
exchange; on success the manager parses the version and the adapters are
re-selected. -/
def DetectVersion (st : ApiState) (vo : NetOutcome) : ApiState × Except GoErr String :=
  match VersionNoAuth vo with
  | Except.error e => (st, Except.error e)
  | Except.ok v =>
    let vm2 := SetVersion st.vm v
    ({ st with vm := vm2, itemAdapter := some (initializeAdapters vm2), hostAdapter := some (initializeAdapters vm2) }, Except.ok v)

/-- Everything observable about one `Login` invocation: the final state,
the returned (auth, err) pair, the token attached to the user.login request
(`request.Auth = api.Auth`, omitted from the JSON only when empty), and the
number of apiinfo.version detection calls issued. -/
structure LoginOutcome where
  state : ApiState
  authRet : String
  err : Option GoErr
  attachedAuth : String
  versionCalls : Nat
deriving DecidableEq, Repr

/-- `API.Login` (part_004 lines 189-215): one user.login exchange through
`CallWithError` (which attaches the current token), then on success the
returned token is stored and version detection runs iff no server version
is known yet; a detection error becomes Login's returned error (the Go
code assigns it to the named return before returning). -/
def Login (st : ApiState) (loginNet : String → NetOutcome) (vo : NetOutcome) :
    LoginOutcome :=
  match CallWithError (loginNet st.auth) with
  | Except.error e =>
    { state := st, authRet := "", err := some e,
      attachedAuth := st.auth, versionCalls := 0 }
  | Except.ok r =>
    if st.vm.serverVersion = "" then
      match DetectVersion { st with auth := r.result } vo with
      | (st2, Except.error e) =>
        { state := st2, authRet := r.result, err := some e,
          attachedAuth := st.auth, versionCalls := 1 }
      | (st2, Except.ok _) =>
        { state := st2, authRet := r.result, err := none,
          attachedAuth := st.auth, versionCalls := 1 }
    else
      { state := { st with auth := r.result }, authRet := r.result, err := none,
        attachedAuth := st.auth, versionCalls := 0 }

theorem login_attachedAuth (st : ApiState) (ln : String → NetOutcome)
    (vo : NetOutcome) : (Login st ln vo).attachedAuth = st.auth := by
  unfold Login
  cases hc : CallWithError (ln st.auth) with
  | error e => rfl
  | ok r =>
    by_cases hsv : st.vm.serverVersion = ""
    · rcases hd : DetectVersion { st with auth := r.result } vo with ⟨st2, res⟩
      cases res <;> simp [hsv, hd]
    · simp [hsv]

theorem login_versionCalls_zero (st : ApiState) (ln : String → NetOutcome)
    (vo : NetOutcome) (h : st.vm.serverVersion ≠ "") :
    (Login st ln vo).versionCalls = 0 ∧ (Login st ln vo).state.vm = st.vm := by
  simp only [Login]
  cases hc : CallWithError (ln st.auth) with
  | error e => exact ⟨rfl, rfl⟩
  | ok r => simp [h]

theorem login_stores_token (st : ApiState) (ln : String → NetOutcome)
    (vo : NetOutcome) (r : RawResponse)
    (hr : CallWithError (ln st.auth) = Except.ok r) :
    (Login st ln vo).state.auth = r.result ∧
    (Login st ln vo).authRet = r.result := by
  simp only [Login]
  rw [hr]
  by_cases hsv : st.vm.serverVersion = ""
  · rcases hd : DetectVersion { st with auth := r.result } vo with ⟨st2, res⟩
    have hst2 : st2.auth = r.result := by
      rcases hv : VersionNoAuth vo with e | v <;>
        simp [DetectVersion, hv] at hd <;> rw [← hd.1]
    cases res <;> simp [hsv, hd, hst2]
  · simp [hsv]

theorem login_detects_once (st : ApiState) (ln : String → NetOutcome)
    (vo : NetOutcome) (r : RawResponse)
    (hsv : st.vm.serverVersion = "")
    (hr : CallWithError (ln st.auth) = Except.ok r) :
    (Login st ln vo).versionCalls = 1 := by
  simp only [Login]
  rw [hr]
  rcases hd : DetectVersion { st with auth := r.result } vo with ⟨st2, res⟩
  cases res <;> simp [hsv, hd]

theorem login_state_vm_of_detect (st : ApiState) (ln : String → NetOutcome)
    (vo : NetOutcome) (r : RawResponse) (v : String)
    (hr : CallWithError (ln st.auth) = Except.ok r)
    (hsv : st.vm.serverVersion = "")
    (hv : VersionNoAuth vo = Except.ok v) :
    (Login st ln vo).state.vm = SetVersion st.vm v := by
  simp only [Login]
  rw [hr]
  simp only [hsv, if_true, reduceIte]
  rcases hd : DetectVersion { st with auth := r.result } vo with ⟨st2, res⟩
  have : st2.vm = SetVersion st.vm v ∧ res = Except.ok v := by
    simp [DetectVersion, hv] at hd
    exact ⟨by rw [← hd.1], by rw [← hd.2]⟩
  cases res with
  | error e =>
    exact absurd this.2 (by simp)
  | ok w => simp [this.1]

/-- C8 counterexample: the claim says Login sends the user.login call
without an attached auth token, but a second Login on a session that is
already authenticated attaches the stored token "tok1" to the user.login
request (it would need to clear api.Auth first, which it does not). -/
theorem login_counterexample :
    (Login
      (Login NewAPIState
        (fun _ => NetOutcome.response (RawResponse.mk none "tok1"))
        (NetOutcome.response (RawResponse.mk none "7.0.0"))).state
      (fun _ => NetOutcome.response (RawResponse.mk none "tok2"))
      (NetOutcome.response (RawResponse.mk none "7.0.0"))).attachedAuth
      = "tok1" ∧
    "tok1" ≠ "" := by
  exact ⟨by decide, by decide⟩

/-- C8 (amended): Login attaches the session's current token to the
user.login request (empty, hence omitted, on a fresh session), stores the
returned token on success, and triggers version detection exactly once
unless a version is already known: with a version known no detection call
is issued, and after a first Login whose detection succeeded with a
non-empty version string, a second Login issues zero detection calls. -/
theorem login_amended :
    ∀ (st : ApiState) (ln : String → NetOutcome) (vo : NetOutcome),
      (Login st ln vo).attachedAuth = st.auth ∧
      (∀ r, CallWithError (ln st.auth) = Except.ok r →
        (Login st ln vo).state.auth = r.result ∧
        (Login st ln vo).authRet = r.result) ∧
      (st.vm.serverVersion ≠ "" → (Login st ln vo).versionCalls = 0) ∧
      (st.vm.serverVersion = "" → ∀ r, CallWithError (ln st.auth) = Except.ok r →
        (Login st ln vo).versionCalls = 1) ∧
      (∀ r v, CallWithError (ln st.auth) = Except.ok r →
        st.vm.serverVersion = "" → VersionNoAuth vo = Except.ok v → v ≠ "" →
        ∀ (ln2 : String → NetOutcome) (vo2 : NetOutcome),
          (Login (Login st ln vo).state ln2 vo2).versionCalls = 0) := by
  intro st ln vo
  refine ⟨login_attachedAuth st ln vo,
          fun r hr => login_stores_token st ln vo r hr,
          fun h => (login_versionCalls_zero st ln vo h).1,
          fun hsv r hr => login_detects_once st ln vo r hsv hr,
          ?_⟩
  intro r v hr hsv hv hvne ln2 vo2
  have hvm := login_state_vm_of_detect st ln vo r v hr hsv hv
  have hne : (Login st ln vo).state.vm.serverVersion ≠ "" := by
    rw [hvm, setVersion_serverVersion]
    exact hvne
  exact (login_versionCalls_zero (Login st ln vo).state ln2 vo2 hne).1

/-- Witness for the amended C8 statement on a concrete successful login and
detection of "7.0.0" followed by a second login. -/
theorem login_amended_witness :
    (Login NewAPIState
      (fun _ => NetOutcome.response (RawResponse.mk none "tok1"))
      (NetOutcome.response (RawResponse.mk none "7.0.0"))).attachedAuth = "" ∧
    (Login NewAPIState
      (fun _ => NetOutcome.response (RawResponse.mk none "tok1"))
      (NetOutcome.response (RawResponse.mk none "7.0.0"))).state.auth = "tok1" ∧
    (Login NewAPIState
      (fun _ => NetOutcome.response (RawResponse.mk none "tok1"))
      (NetOutcome.response (RawResponse.mk none "7.0.0"))).versionCalls = 1 ∧
    (Login
      (Login NewAPIState
        (fun _ => NetOutcome.response (RawResponse.mk none "tok1"))
        (NetOutcome.response (RawResponse.mk none "7.0.0"))).state
      (fun _ => NetOutcome.response (RawResponse.mk none "tok2"))
      (NetOutcome.response (RawResponse.mk none "6.0.0"))).versionCalls = 0 :=
  ⟨(login_amended NewAPIState
      (fun _ => NetOutcome.response (RawResponse.mk none "tok1"))
      (NetOutcome.response (RawResponse.mk none "7.0.0"))).1,
   ((login_amended NewAPIState
      (fun _ => NetOutcome.response (RawResponse.mk none "tok1"))
      (NetOutcome.response (RawResponse.mk none "7.0.0"))).2.1
      (RawResponse.mk none "tok1") rfl).1,
   (login_amended NewAPIState
      (fun _ => NetOutcome.response (RawResponse.mk none "tok1"))
      (NetOutcome.response (RawResponse.mk none "7.0.0"))).2.2.2.1 rfl
      (RawResponse.mk none "tok1") rfl,
   (login_amended NewAPIState
      (fun _ => NetOutcome.response (RawResponse.mk none "tok1"))
      (NetOutcome.response (RawResponse.mk none "7.0.0"))).2.2.2.2
      (RawResponse.mk none "tok1") "7.0.0" rfl rfl rfl (by decide)
      (fun _ => NetOutcome.response (RawResponse.mk none "tok2"))
      (NetOutcome.response (RawResponse.mk none "6.0.0"))⟩

/-- Everything observable about one base.go `Version` invocation: the
final `api.Auth` value, the returned result, and the token attached to
each issued APIInfo.version call, in order. -/
structure VersionOutcome where
  auth : String
  res : Except GoErr String
  attachedAuths : List String
deriving Repr

/-- `API.Version` (base.go lines 1019-1037): save the token, clear it for
the unauthenticated APIInfo.version call, restore it right after the
exchange, and retry once with the restored token when the first outcome is
the protocol error -32602.  `call` maps the attached token to that
exchange's outcome. -/
def Version (auth : String) (call : String → NetOutcome) : VersionOutcome :=
  match CallWithError (call "") with
  | Except.error (GoErr.protocol e) =>
    if e.code = -32602 then
      match CallWithError (call auth) with
      | Except.error e2 =>
        { auth := auth, res := Except.error e2, attachedAuths := ["", auth] }
      | Except.ok r =>
        { auth := auth, res := Except.ok r.result, attachedAuths := ["", auth] }
    else
      { auth := auth, res := Except.error (GoErr.protocol e),
        attachedAuths := [""] }
  | Except.error e =>
    { auth := auth, res := Except.error e, attachedAuths := [""] }
  | Except.ok r =>
    { auth := auth, res := Except.ok r.result, attachedAuths := [""] }

/-- C10: Version leaves the session's auth token unchanged on every return
path, success or error: the stored token after the call equals the token at
entry, the first exchange attaches the empty token, and the only other
exchange (the -32602 retry) attaches the restored original token. -/
theorem version_preserves_auth :
    ∀ (auth : String) (call : String → NetOutcome),
      (Version auth call).auth = auth ∧
      ((Version auth call).attachedAuths = [""] ∨
        (Version auth call).attachedAuths = ["", auth]) := by
  intro auth call
  simp only [Version]
  cases hc : CallWithError (call "") with
  | ok r => exact ⟨rfl, Or.inl rfl⟩
  | error e =>
    cases e with
    | protocol pe =>
      by_cases hcode : pe.code = -32602
      · cases hc2 : CallWithError (call auth) with
        | error e2 => simp [hcode, hc2]
        | ok r => simp [hcode, hc2]
      · simp [hcode]
    | transport m => exact ⟨rfl, Or.inl rfl⟩
    | decode m => exact ⟨rfl, Or.inl rfl⟩
    | expectedOneResult n => exact ⟨rfl, Or.inl rfl⟩
    | unsupportedFeature m => exact ⟨rfl, Or.inl rfl⟩

end Zabbix
